import Mathlib

/-!
# Verification of the ProductionLinePerformanceAnalysis pipeline

Shallow embedding of the repository's data pipeline:
* `src/analysis/src/data/download.py`  — dataset download / placeholder fallback,
* `src/analysis/src/data/preprocess.py` — loading, imputation, merging, feature selection,
* `src/analysis/src/models/anomaly.py`  — the four anomaly detectors and the main script,
* `src/backend/python/AnalysisAPI/app.py` — the `/api/predict` endpoint.

Dataframes are modelled column-wise: a cell is `Option Val` (`none` is pandas `NaN`),
a column is a named list of cells.  External library calls (scikit-learn `fit_predict`,
`score_samples`, numpy sampling) are modelled as explicit oracle parameters, so every
property proved here holds for every behaviour of the wrapped library; the library
transforms whose output the code inspects (`SimpleImputer`'s median / most-frequent
fill) are modelled by their documented semantics.
-/

set_option autoImplicit false

namespace PLPA

/-- A dataframe cell value: pandas columns in this pipeline hold either numbers
(modelled as `ℚ`) or strings. -/
inductive Val where
  | num (q : ℚ)
  | str (s : String)
deriving DecidableEq, Repr

/-- The numeric content of a cell value, when it is a number. -/
def Val.asNum : Val → Option ℚ
  | .num q => some q
  | .str _ => none

/-- A column: a list of optional cells (`none` models a missing value / NaN). -/
abbrev Col := List (Option Val)

/-- A dataframe: an ordered list of named columns. -/
structure DataFrame where
  cols : List (String × Col)
deriving DecidableEq, Repr

namespace DataFrame

/-- The column names, in order (pandas `df.columns`). -/
def colNames (df : DataFrame) : List String := df.cols.map Prod.fst

/-- Look up a column by name (first match, as pandas label lookup). -/
def getCol (df : DataFrame) (name : String) : Option Col :=
  (df.cols.find? (fun c => c.fst = name)).map Prod.snd

/-- Number of rows (length of the first column; 0 for a dataframe with no columns). -/
def nRows (df : DataFrame) : Nat :=
  match df.cols with
  | [] => 0
  | c :: _ => c.snd.length

/-- Number of columns (pandas `df.shape[1]`). -/
def nCols (df : DataFrame) : Nat := df.cols.length

/-- pandas `df.drop(names, axis=1)`: remove the named columns. -/
def dropCols (df : DataFrame) (names : List String) : DataFrame :=
  ⟨df.cols.filter (fun c => ¬ names.contains c.fst)⟩

/-- pandas `df[names]`: keep the named columns, in the order given by `names`. -/
def select (df : DataFrame) (names : List String) : DataFrame :=
  ⟨names.filterMap (fun n => (df.getCol n).map (fun c => (n, c)))⟩

/-- The `i`-th row, as the list of cells across columns (missing index gives `none`,
matching out-of-range never arising for well-formed frames). -/
def row (df : DataFrame) (i : Nat) : List (Option Val) :=
  df.cols.map (fun c => c.snd.getD i none)

/-- pandas `df.iloc[idxs]`: select rows by position. -/
def selectRows (df : DataFrame) (idxs : List Nat) : DataFrame :=
  ⟨df.cols.map (fun c => (c.fst, idxs.map (fun i => c.snd.getD i none)))⟩

/-- pandas `df.empty`: no columns, or no rows. -/
def isEmpty (df : DataFrame) : Bool := df.cols.isEmpty || df.nRows == 0

end DataFrame

/-- A column has pandas numeric dtype in this pipeline exactly when no cell is a
string (float columns keep numeric dtype through NaNs). -/
def isNumericCol (c : Col) : Bool :=
  c.all (fun cell => match cell with
    | some (.str _) => false
    | _ => true)

/-- numpy `np.median` of a list of rationals: middle element of the sorted list,
or the mean of the two middle elements for even length. -/
def medianQ (l : List ℚ) : ℚ :=
  let s := List.insertionSort (· ≤ ·) l
  let n := s.length
  if n % 2 = 1 then s.getD (n / 2) 0
  else (s.getD (n / 2 - 1) 0 + s.getD (n / 2) 0) / 2

/-- A total order on cell values used to fix the tie-break of the most-frequent
statistic (scikit-learn breaks ties towards the smallest value). -/
def valLeB : Val → Val → Bool
  | .num a, .num b => a ≤ b
  | .num _, .str _ => true
  | .str _, .num _ => false
  | .str a, .str b => a ≤ b

/-- The most frequent value of a list (smallest such value on ties), as computed by
scikit-learn's `most_frequent` strategy. -/
def mostFrequentVal (l : List Val) : Val :=
  let s := List.insertionSort (fun a b => valLeB a b = true) l
  match s with
  | [] => .num 0
  | x :: _ => s.foldl (fun best v => if l.count v > l.count best then v else best) x

/-- `SimpleImputer(strategy='median')` fit statistic for one column: the median of
the observed (non-missing) numeric entries. -/
def medianFill (observed : List Val) : Val :=
  .num (medianQ (observed.filterMap Val.asNum))

/-- `SimpleImputer(strategy='most_frequent')` fit statistic for one column. -/
def mostFrequentFill (observed : List Val) : Val :=
  mostFrequentVal observed

/-- `SimpleImputer.fit_transform` on one column: fit the statistic on the observed
entries of the column and replace each missing cell by it. -/
def sklearnImputeCol (fill : List Val → Val) (col : Col) : Col :=
  let fitted := fill (col.filterMap id)
  col.map (fun c => some (c.getD fitted))

/-- `SimpleImputer.fit_transform` applied to a whole dataframe, column by column. -/
def sklearnImpute (fill : List Val → Val) (df : DataFrame) : DataFrame :=
  ⟨df.cols.map (fun c => (c.fst, sklearnImputeCol fill c.snd))⟩

/-- The dict returned by `load_data` / `generate_synthetic_data`:
keys `numeric`, `categorical`, `date`. -/
structure RawData where
  numeric : DataFrame
  categorical : DataFrame
  date : DataFrame
deriving DecidableEq, Repr

/-- The dict returned by `handle_missing_values`; the `date` key is present only
when the input date dataframe is non-empty. -/
structure ProcessedData where
  numeric : DataFrame
  categorical : DataFrame
  date : Option DataFrame
deriving DecidableEq, Repr

/-- The Id-column name used by `preprocess.py`: the column named `Id` when present,
else the first column (`df.columns[0]`). -/
def idColOf (df : DataFrame) : String :=
  if df.colNames.contains "Id" then "Id" else df.colNames.headD ""

/-- `preprocess.handle_missing_values`: impute numeric feature columns with the
median, categorical feature columns with the most frequent value, keeping the
`Id` (and `Response`) columns aside and re-attaching them in front; the date
dataframe is copied unchanged (and dropped from the dict when empty). -/
def handle_missing_values (data : RawData) : ProcessedData :=
  let numeric_df := data.numeric
  let id_col := idColOf numeric_df
  let has_response := numeric_df.colNames.contains "Response"
  let dropNames := if has_response then [id_col, "Response"] else [id_col]
  let numeric_features := numeric_df.dropCols dropNames
  let numeric_features_imputed := sklearnImpute medianFill numeric_features
  let numeric_df_processed : DataFrame :=
    ⟨(numeric_df.select dropNames).cols ++ numeric_features_imputed.cols⟩
  let categorical_df := data.categorical
  let categorical_features := categorical_df.dropCols [id_col]
  let categorical_features_imputed := sklearnImpute mostFrequentFill categorical_features
  let categorical_df_processed : DataFrame :=
    ⟨(categorical_df.select [id_col]).cols ++ categorical_features_imputed.cols⟩
  let date := if data.date.isEmpty then none else some data.date
  ⟨numeric_df_processed, categorical_df_processed, date⟩

/-- The observed numeric pairs of two columns (pandas pairwise-complete
observations used by `corrwith`). -/
def pairedObs (x y : Col) : List (ℚ × ℚ) :=
  (x.zip y).filterMap (fun p => match p.1, p.2 with
    | some (.num a), some (.num b) => some (a, b)
    | _, _ => none)

/-- The square of the Pearson correlation of two columns over pairwise-complete
observations, `none` when it is undefined (no pairs, or a zero variance — pandas
yields NaN there).  Working with the square keeps the computation rational;
comparing `|corr|` against a nonnegative threshold is equivalent to comparing
`corr^2` against its square. -/
def corrSq (x y : Col) : Option ℚ :=
  let p := pairedObs x y
  let n : ℚ := (p.length : ℚ)
  if p.length = 0 then none else
  let mx := (p.map Prod.fst).sum / n
  let my := (p.map Prod.snd).sum / n
  let vx := (p.map (fun q => (q.1 - mx) * (q.1 - mx))).sum
  let vy := (p.map (fun q => (q.2 - my) * (q.2 - my))).sum
  let cov := (p.map (fun q => (q.1 - mx) * (q.2 - my))).sum
  if vx = 0 ∨ vy = 0 then none else some (cov * cov / (vx * vy))

/-- `preprocess.feature_selection`: with a `Response` column present, keep
`[Id, Response]` plus the numeric feature columns whose absolute Pearson
correlation with `Response` exceeds `0.01` (equivalently `corr^2 > 0.0001`),
ordered by decreasing absolute correlation; without `Response` the input is
returned unchanged. -/
def feature_selection (merged : DataFrame) : DataFrame :=
  let id_col := idColOf merged
  let has_response := merged.colNames.contains "Response"
  if ¬ has_response then merged else
  let features := merged.dropCols [id_col, "Response"]
  let numericNames := (features.cols.filter (fun c => isNumericCol c.snd)).map Prod.fst
  let resp := (merged.getCol "Response").getD []
  let selected := numericNames.filter (fun f =>
    match corrSq ((merged.getCol f).getD []) resp with
    | none => false
    | some c => ((1 : ℚ) / 10000) < c)
  let key := fun f => ((corrSq ((merged.getCol f).getD []) resp).getD 0)
  let important := List.insertionSort (fun f g => (decide (key g ≤ key f)) = true) selected
  merged.select ([id_col, "Response"] ++ important)

/-- pandas `pd.merge(left, right, on=key, how='left')`: every left row, paired
with each right row whose key cell equals its key cell (pandas also matches NaN
keys to NaN keys in merges), or with all-missing right cells when no right row
matches; left columns first, then the right columns without the key. -/
def leftMerge (left right : DataFrame) (key : String) : DataFrame :=
  let leftKey := (left.getCol key).getD []
  let rightKey := (right.getCol key).getD []
  let rightRest := right.dropCols [key]
  let rows : List (List (Option Val)) :=
    (List.range left.nRows).flatMap (fun i =>
      let kl := leftKey.getD i none
      let ms := (List.range right.nRows).filter (fun j => rightKey.getD j none = kl)
      if ms.isEmpty then [left.row i ++ rightRest.cols.map (fun _ => none)]
      else ms.map (fun j => left.row i ++ rightRest.row j))
  let names := left.colNames ++ rightRest.colNames
  ⟨names.enum.map (fun p => (p.2, rows.map (fun r => r.getD p.1 none)))⟩

/-- `preprocess.merge_datasets`: left-join the categorical and then the date
dataframe onto the numeric one by the Id column, skipping an absent or empty
dataframe. -/
def merge_datasets (pd : ProcessedData) : DataFrame :=
  let base := pd.numeric
  let id_col := idColOf base
  let withCat := if ¬ pd.categorical.isEmpty then leftMerge base pd.categorical id_col else base
  match pd.date with
  | some d => if ¬ d.isEmpty then leftMerge withCat d id_col else withCat
  | none => withCat

/-! ## Synthetic data and `load_data` (preprocess.py) -/

/-- `n_samples` in `generate_synthetic_data`. -/
def SYN_SAMPLES : Nat := 10000

/-- `numeric_features` in `generate_synthetic_data`. -/
def SYN_NUMERIC_FEATURES : Nat := 50

/-- `categorical_features` in `generate_synthetic_data`. -/
def SYN_CATEGORICAL_FEATURES : Nat := 20

/-- `date_features` in `generate_synthetic_data`. -/
def SYN_DATE_FEATURES : Nat := 10

/-- The numpy random draws consumed by `generate_synthetic_data`, abstracted:
`normal j i` is the standard-normal draw for row `j`, feature `i`; `respChoice j`
is the Bernoulli draw behind `np.random.choice([0, 1], p=[0.99, 0.01])` for row
`j` (`true` selects `1`); `catVal i j` and `dateVal i j` are the generated
categorical label and formatted timestamp for feature `i`, row `j`.  Shapes and
column names do not depend on the draws, so properties proved for every `RNG`
hold in particular for numpy seeded with 42. -/
structure RNG where
  normal : Nat → Nat → ℚ
  respChoice : Nat → Bool
  catVal : Nat → Nat → String
  dateVal : Nat → Nat → String

/-- The `Id` column of the synthetic dataframes: `np.arange(n_samples)`, cast to
integer. -/
def synIds : Col := (List.range SYN_SAMPLES).map (fun (j : ℕ) => some (.num (j : ℚ)))

/-- `preprocess.generate_synthetic_data`: the synthetic numeric, categorical and
date dataframes (columns `Id, L0_S0_F0..49, Response`; `Id, L0_S0_C0..19`;
`Id, L0_S0_D0..9`), each with `n_samples = 10000` rows. -/
def generate_synthetic_data (rng : RNG) : RawData :=
  let numeric : DataFrame := ⟨("Id", synIds) ::
    ((List.range SYN_NUMERIC_FEATURES).map (fun i =>
      ("L0_S0_F" ++ toString i,
        (List.range SYN_SAMPLES).map (fun j => some (Val.num (rng.normal j i))))))
    ++ [("Response",
      (List.range SYN_SAMPLES).map (fun j =>
        some (Val.num (if rng.respChoice j then 1 else 0))))]⟩
  let categorical : DataFrame := ⟨("Id", synIds) ::
    (List.range SYN_CATEGORICAL_FEATURES).map (fun i =>
      ("L0_S0_C" ++ toString i,
        (List.range SYN_SAMPLES).map (fun j => some (Val.str (rng.catVal i j)))))⟩
  let date : DataFrame := ⟨("Id", synIds) ::
    (List.range SYN_DATE_FEATURES).map (fun i =>
      ("L0_S0_D" ++ toString i,
        (List.range SYN_SAMPLES).map (fun j => some (Val.str (rng.dateVal i j)))))⟩
  ⟨numeric, categorical, date⟩

/-- The state of the raw-data directory as seen by `preprocess.load_data`:
existence of the three required files, the (stripped-to-be) first line of
`train_numeric.csv`, whether the three `pd.read_csv` calls succeed, and the
parsed dataframes when they do. -/
structure PreFS where
  hasTrainNumeric : Bool
  hasTrainCategorical : Bool
  hasTrainDate : Bool
  firstLineNumeric : String
  readOk : Bool
  rawNumeric : DataFrame
  rawCategorical : DataFrame
  rawDate : DataFrame

/-- The two `sys.exit(1)` sites of `preprocess.load_data`. -/
inductive ExitSite where
  | missingRequired
  | loadError
deriving DecidableEq, Repr

/-- Outcome of `preprocess.load_data`: a `sys.exit(code)` at a given site, or the
loaded data dict. -/
inductive LoadResult where
  | exited (code : Nat) (site : ExitSite)
  | ok (d : RawData)
deriving DecidableEq

/-- The marker compared against the first line of `train_numeric.csv`. -/
def PLACEHOLDER_MARKER : String := "# This is a placeholder"

/-- Python `str.startswith`, over the underlying character lists (the built-in
`String.startsWith` is not kernel-reducible). -/
def strStartsWith (s pre : String) : Bool := pre.data.isPrefixOf s.data

/-- Python `str.strip`: remove leading and trailing whitespace. -/
def strStrip (s : String) : String :=
  ⟨((s.data.dropWhile Char.isWhitespace).reverse.dropWhile Char.isWhitespace).reverse⟩

/-- `preprocess.load_data`: exit(1) when a required file is missing; return the
synthetic data when the first line of `train_numeric.csv` (stripped) starts with
the placeholder marker; otherwise read the three CSV files, exiting(1) when that
fails. -/
def load_data (fs : PreFS) (rng : RNG) : LoadResult :=
  if ¬ (fs.hasTrainNumeric && fs.hasTrainCategorical && fs.hasTrainDate) then
    .exited 1 .missingRequired
  else if strStartsWith (strStrip fs.firstLineNumeric) PLACEHOLDER_MARKER then
    .ok (generate_synthetic_data rng)
  else if fs.readOk then
    .ok ⟨fs.rawNumeric, fs.rawCategorical, fs.rawDate⟩
  else
    .exited 1 .loadError

/-- `preprocess.analyze_missing_values`: per-column missing counts; the function
returns the table of the last dict entry (the date dataframe) and changes no
data. -/
def analyze_missing_values (data : RawData) : List (String × Nat) :=
  data.date.cols.map (fun c => (c.fst, (c.snd.filter Option.isNone).length))

/-- Outcome of `preprocess.main`: an exit inherited from `load_data`, or a
processed dataframe saved under the tag `train` or `test`. -/
inductive PreprocessResult where
  | exited (code : Nat) (site : ExitSite)
  | saved (tag : String) (df : DataFrame)
deriving DecidableEq

/-- `preprocess.main`: load, analyze missing values (a report only), impute,
merge, then feature-select and save as `train` when a `Response` column is
present, else save the merged data as `test`. -/
def preprocess_main (fs : PreFS) (rng : RNG) : PreprocessResult :=
  match load_data fs rng with
  | .exited c s => .exited c s
  | .ok data =>
    let _ := analyze_missing_values data
    let processed := handle_missing_values data
    let merged := merge_datasets processed
    if merged.colNames.contains "Response" then .saved "train" (feature_selection merged)
    else .saved "test" merged

/-! ## anomaly.py: loading, preparation, the four detectors, main -/

/-- The state of the processed-data directory as seen by
`anomaly.load_processed_data`: existence and readability of the pickle and CSV
files, and their parsed content. -/
structure ProcFS where
  pickleExists : Bool
  pickleOk : Bool
  pickleData : DataFrame
  csvExists : Bool
  csvOk : Bool
  csvData : DataFrame

/-- Outcome of `anomaly.load_processed_data`. -/
inductive ProcLoadResult where
  | exited (code : Nat)
  | ok (d : DataFrame)

/-- `anomaly.load_processed_data`: try the pickle (a failed read only logs a
warning), fall back to the CSV (a failed read exits(1)), exit(1) when neither
file exists. -/
def load_processed_data (fs : ProcFS) : ProcLoadResult :=
  if fs.pickleExists && fs.pickleOk then .ok fs.pickleData
  else if fs.csvExists then
    if fs.csvOk then .ok fs.csvData else .exited 1
  else .exited 1

/-- `anomaly.prepare_data_for_anomaly_detection`: drop the Id (and Response)
columns, keep only the numeric-dtype feature columns as `X`, and the Response
column as `y` when present. -/
def prepare_data_for_anomaly_detection (data : DataFrame) : DataFrame × Option Col :=
  let id_col := idColOf data
  let has_response := data.colNames.contains "Response"
  let X := if has_response then data.dropCols [id_col, "Response"]
           else data.dropCols [id_col]
  let y := if has_response then data.getCol "Response" else none
  let X_numeric : DataFrame := ⟨X.cols.filter (fun c => isNumericCol c.snd)⟩
  (X_numeric, y)

/-- Constructor arguments of `sklearn.ensemble.IsolationForest` as given in
`detect_anomalies_isolation_forest`. -/
structure IFParams where
  contamination : ℚ
  random_state : Nat
  n_estimators : Nat
  n_jobs : Int
deriving DecidableEq, Repr

/-- Constructor arguments of `sklearn.neighbors.LocalOutlierFactor` as given in
`detect_anomalies_lof`. -/
structure LOFParams where
  n_neighbors : Nat
  contamination : ℚ
  n_jobs : Int
deriving DecidableEq, Repr

/-- Constructor arguments of `sklearn.svm.OneClassSVM` as given in
`detect_anomalies_ocsvm`. -/
structure OCSVMParams where
  nu : ℚ
  kernel : String
  gamma : String
deriving DecidableEq, Repr

/-- Constructor arguments of `sklearn.covariance.EllipticEnvelope` as given in
`detect_anomalies_elliptic_envelope`. -/
structure EEParams where
  contamination : ℚ
  random_state : Nat
deriving DecidableEq, Repr

/-- The scikit-learn estimator behaviours and the numpy sampling draw, abstracted
as an oracle: each `fit_predict` and each score function may return anything, so
the theorems below hold for every behaviour of the library; `sampleIndices n k`
stands for `np.random.choice(n, k, replace=False)`. -/
structure SkOracle where
  ifFitPredict : IFParams → DataFrame → List Int
  ifScoreSamples : IFParams → DataFrame → List ℚ
  lofFitPredict : LOFParams → DataFrame → List Int
  lofNegOutlierFactor : LOFParams → DataFrame → List ℚ
  ocsvmFitPredict : OCSVMParams → DataFrame → List Int
  ocsvmDecision : OCSVMParams → DataFrame → List ℚ
  eeFitPredict : EEParams → DataFrame → List Int
  eeDecision : EEParams → DataFrame → List ℚ
  sampleIndices : Nat → Nat → List Nat

/-- What a detector function returns: the fitted model (identified by its
constructor arguments), the binary anomaly labels, and the anomaly scores. -/
structure DetectResult (P : Type) where
  model : P
  anomalies : List Nat
  scores : List ℚ
deriving DecidableEq, Repr

/-- `anomaly.detect_anomalies_isolation_forest`. -/
def detect_anomalies_isolation_forest (or : SkOracle) (X : DataFrame)
    (contamination : ℚ) (random_state : Nat) : DetectResult IFParams :=
  let model : IFParams := ⟨contamination, random_state, 100, -1⟩
  let y_pred := or.ifFitPredict model X
  let anomalies := y_pred.map (fun v => if v = -1 then 1 else 0)
  let scores := (or.ifScoreSamples model X).map (fun s => -s)
  ⟨model, anomalies, scores⟩

/-- `anomaly.detect_anomalies_lof`. -/
def detect_anomalies_lof (or : SkOracle) (X : DataFrame)
    (contamination : ℚ) : DetectResult LOFParams :=
  let model : LOFParams := ⟨20, contamination, -1⟩
  let y_pred := or.lofFitPredict model X
  let anomalies := y_pred.map (fun v => if v = -1 then 1 else 0)
  let scores := (or.lofNegOutlierFactor model X).map (fun s => -s)
  ⟨model, anomalies, scores⟩

/-- `anomaly.detect_anomalies_ocsvm`: the contamination argument is passed as the
`nu` constructor argument of `OneClassSVM`. -/
def detect_anomalies_ocsvm (or : SkOracle) (X : DataFrame)
    (contamination : ℚ) : DetectResult OCSVMParams :=
  let model : OCSVMParams := ⟨contamination, "rbf", "auto"⟩
  let y_pred := or.ocsvmFitPredict model X
  let anomalies := y_pred.map (fun v => if v = -1 then 1 else 0)
  let scores := (or.ocsvmDecision model X).map (fun s => -s)
  ⟨model, anomalies, scores⟩

/-- `anomaly.detect_anomalies_elliptic_envelope`. -/
def detect_anomalies_elliptic_envelope (or : SkOracle) (X : DataFrame)
    (contamination : ℚ) (random_state : Nat) : DetectResult EEParams :=
  let model : EEParams := ⟨contamination, random_state⟩
  let y_pred := or.eeFitPredict model X
  let anomalies := y_pred.map (fun v => if v = -1 then 1 else 0)
  let scores := (or.eeDecision model X).map (fun s => -s)
  ⟨model, anomalies, scores⟩

/-- The data and detector outputs produced by one run of `anomaly.main`. -/
structure AnomalyRun where
  X : DataFrame
  y : Option Col
  contamination : ℚ
  ifResult : DetectResult IFParams
  lofResult : DetectResult LOFParams
  X_sample : DataFrame
  ocsvmResult : DetectResult OCSVMParams
  eeResult : Option (DetectResult EEParams)

/-- Outcome of `anomaly.main`. -/
inductive AnomalyMainResult where
  | exited (code : Nat)
  | completed (run : AnomalyRun)

/-- `anomaly.main`: load the processed train data, prepare `X`, then run
Isolation Forest and LOF on `X` with contamination `0.01`, One-Class SVM on a
sample of `min(10000, len(X))` rows when `len(X) > 10000` (else on `X`), and
Elliptic Envelope on `X` only when `X.shape[1] <= 20`.  The value 42 passed for
`random_state` mirrors the Python default argument used by the calls in `main`. -/
def anomaly_main (or : SkOracle) (fs : ProcFS) : AnomalyMainResult :=
  match load_processed_data fs with
  | .exited c => .exited c
  | .ok data =>
    let p := prepare_data_for_anomaly_detection data
    let X := p.1
    let contamination : ℚ := 1 / 100
    let rIF := detect_anomalies_isolation_forest or X contamination 42
    let rLOF := detect_anomalies_lof or X contamination
    let X_sample :=
      if X.nRows > 10000 then X.selectRows (or.sampleIndices X.nRows (min 10000 X.nRows))
      else X
    let rOC := detect_anomalies_ocsvm or X_sample contamination
    let rEE :=
      if X.nCols ≤ 20 then some (detect_anomalies_elliptic_envelope or X contamination 42)
      else none
    .completed ⟨X, p.2, contamination, rIF, rLOF, X_sample, rOC, rEE⟩

/-! ## download.py -/

/-- The seven dataset files `check_dataset_exists` (and `simulate_download`)
enumerate. -/
def EXPECTED_FILES : List String :=
  ["train_numeric.csv", "train_categorical.csv", "train_date.csv",
   "test_numeric.csv", "test_categorical.csv", "test_date.csv",
   "sample_submission.csv"]

/-- `download.check_dataset_exists` over a raw-data directory modelled as the
list of file names it contains. -/
def check_dataset_exists (files : List String) : Bool :=
  EXPECTED_FILES.all (fun f => files.contains f)

/-- `download.simulate_download`: create each of the seven placeholder files that
does not already exist. -/
def simulate_download (files : List String) : List String :=
  files ++ EXPECTED_FILES.filter (fun f => ¬ files.contains f)

/-- `download.main` over an abstract download outcome: `apiAdded` are the files
the Kaggle API attempt leaves in the directory (possibly none), `apiSuccess`
whether `download_with_kaggle_api` returned `True`, and `zipAdded` the files
`extract_zip_files` extracts afterwards.  Returns the Python return value
together with the final directory state. -/
def download_main (init : List String) (apiSuccess : Bool)
    (apiAdded zipAdded : List String) : Bool × List String :=
  if check_dataset_exists init then (true, init)
  else
    let afterApi := init ++ apiAdded
    if apiSuccess then
      let afterZip := afterApi ++ zipAdded
      if check_dataset_exists afterZip then (true, afterZip)
      else (true, simulate_download afterZip)
    else (true, simulate_download afterApi)

/-! ## AnalysisAPI `/api/predict` (backend/python/AnalysisAPI/app.py) -/

/-- The JSON body of a POST to `/api/predict`: each feature may be present or
omitted. -/
structure PredictInput where
  temperature : Option ℚ
  pressure : Option ℚ
  speed : Option ℚ
  vibration : Option ℚ
deriving DecidableEq, Repr

/-- The trained basic `IsolationForest` of the API, abstracted by its `predict`
and `decision_function` behaviour on a sample. -/
structure BasicModel where
  predict : List ℚ → Int
  decision : List ℚ → ℚ

/-- The expected normal values `[50, 100, 75, 25]` used both as defaults for
missing features and as the baseline for relative deviations. -/
def NORMAL_VALUES : List ℚ := [50, 100, 75, 25]

/-- The feature order used by `/api/predict`. -/
def FEATURE_NAMES : List String := ["temperature", "pressure", "speed", "vibration"]

/-- The sample row built by `/api/predict`: each missing feature defaults to its
normal value via `input_data.get(name, default)`. -/
def predictSample (inp : PredictInput) : List ℚ :=
  [inp.temperature.getD 50, inp.pressure.getD 100, inp.speed.getD 75, inp.vibration.getD 25]

/-- `np.argmax`: the first index attaining the maximum (0 on the empty list). -/
def argmaxFirst (l : List ℚ) : Nat :=
  match l with
  | [] => 0
  | x :: _ => (l.enum.foldl (fun (b : Nat × ℚ) (p : Nat × ℚ) => if p.2 > b.2 then p else b) (0, x)).1

/-- The JSON response of `/api/predict`. -/
structure PredictResponse where
  is_anomaly : Bool
  anomaly_score : ℚ
  recommendation : String
  probable_cause : Option String
deriving DecidableEq, Repr

/-- The `/api/predict` handler of the AnalysisAPI: build the sample with the
normal-value defaults, predict with the basic model; on an anomaly pick the
feature of largest relative deviation from its normal value and answer with its
specific recommendation (the initial `Maintenance required` recommendation is
kept only if the chosen name matched no branch of the if/elif chain, which the
theorems below show cannot happen); otherwise answer `Normal operation`. -/
def api_predict_anomaly (m : BasicModel) (inp : PredictInput) : PredictResponse :=
  let sample := predictSample inp
  let prediction := m.predict sample
  let score := m.decision sample
  if prediction == -1 then
    let deviations := (List.range 4).map (fun i =>
      |sample.getD i 0 - NORMAL_VALUES.getD i 0| / NORMAL_VALUES.getD i 0)
    let fname := FEATURE_NAMES.getD (argmaxFirst deviations) ""
    let recommendation :=
      if fname = "temperature" then "Check cooling system"
      else if fname = "pressure" then "Inspect pressure valves"
      else if fname = "speed" then "Verify motor operation"
      else if fname = "vibration" then "Check for loose components"
      else "Maintenance required"
    ⟨true, score, recommendation, some ("Abnormal " ++ fname)⟩
  else
    ⟨false, score, "Normal operation", none⟩

/-! ## Accessors and concrete instances used in the statements below -/

/-- The dataframe a `preprocess.main` outcome saved, when it saved one. -/
def savedOf : PreprocessResult → Option DataFrame
  | .exited _ _ => none
  | .saved _ df => some df

/-- The tag (`train` or `test`) a `preprocess.main` outcome saved under. -/
def savedTagOf : PreprocessResult → Option String
  | .exited _ _ => none
  | .saved tag _ => some tag

/-- The feature matrix `X` an `anomaly.main` outcome fitted on, when it ran. -/
def AnomalyMainResult.fittedX : AnomalyMainResult → Option DataFrame
  | .exited _ => none
  | .completed r => some r.X

/-- The processed-data directory just after `save_processed_data df`: the pickle
and the CSV both exist, both readable, both holding `df`. -/
def storeOf (df : DataFrame) : ProcFS := ⟨true, true, df, true, true, df⟩

/-- A fixed random source (all draws constant), used to instantiate theorems
quantified over every `RNG`. -/
def trivRNG : RNG := ⟨fun _ _ => 0, fun _ => false, fun _ _ => "", fun _ _ => ""⟩

/-- A fixed estimator behaviour: every `fit_predict` labels the second of two
rows an outlier, every score is zero, and `sampleIndices n k` is `range k`. -/
def trivOracle : SkOracle :=
  ⟨fun _ _ => [1, -1], fun _ _ => [0, 0],
   fun _ _ => [1, -1], fun _ _ => [0, 0],
   fun _ _ => [1, -1], fun _ _ => [0, 0],
   fun _ _ => [1, -1], fun _ _ => [0, 0],
   fun _ k => List.range k⟩

/-- A two-row numeric training dataframe with one missing cell. -/
def demoNumeric : DataFrame :=
  ⟨[("Id", [some (.num 0), some (.num 1)]),
    ("F0", [some (.num 4), none]),
    ("Response", [some (.num 0), some (.num 1)])]⟩

/-- A two-row categorical dataframe with one missing cell. -/
def demoCategorical : DataFrame :=
  ⟨[("Id", [some (.num 0), some (.num 1)]),
    ("C0", [some (.str "a"), none])]⟩

/-- A two-row date dataframe. -/
def demoDate : DataFrame :=
  ⟨[("Id", [some (.num 0), some (.num 1)]),
    ("D0", [some (.str "t0"), some (.str "t1")])]⟩

/-- The demo raw-data dict. -/
def demoRaw : RawData := ⟨demoNumeric, demoCategorical, demoDate⟩

/-- A raw-data directory holding the three demo CSV files with real content. -/
def fsDemo : PreFS :=
  ⟨true, true, true, "Id,F0,Response", true, demoNumeric, demoCategorical, demoDate⟩

/-- A raw-data directory missing `train_numeric.csv`. -/
def fsMissing : PreFS := ⟨false, true, true, "", true, ⟨[]⟩, ⟨[]⟩, ⟨[]⟩⟩

/-- A processed-data directory holding neither the pickle nor the CSV. -/
def pfsNone : ProcFS := ⟨false, true, ⟨[]⟩, false, true, ⟨[]⟩⟩

/-- A raw-data directory whose `train_numeric.csv` is a placeholder file. -/
def fsPlaceholder : PreFS :=
  ⟨true, true, true, "# This is a placeholder for train_numeric.csv", true,
   ⟨[]⟩, ⟨[]⟩, ⟨[]⟩⟩

/-- A small processed training dataframe for driving `anomaly.main`. -/
def demoProcessed : DataFrame :=
  ⟨[("Id", [some (.num 0), some (.num 1)]),
    ("F0", [some (.num 1), some (.num 2)]),
    ("Response", [some (.num 0), some (.num 1)])]⟩

/-- The run `anomaly.main` performs on the demo processed data with the fixed
estimator behaviour. -/
def demoRun : AnomalyRun :=
  match anomaly_main trivOracle (storeOf demoProcessed) with
  | .completed r => r
  | .exited _ =>
    ⟨⟨[]⟩, none, 0, ⟨⟨0, 0, 0, 0⟩, [], []⟩, ⟨⟨0, 0, 0⟩, [], []⟩, ⟨[]⟩,
     ⟨⟨0, "", ""⟩, [], []⟩, none⟩

/-- A basic model that flags every sample as an anomaly. -/
def mAnom : BasicModel := ⟨fun _ => -1, fun _ => 0⟩

/-- The request body with every feature omitted. -/
def inpNone : PredictInput := ⟨none, none, none, none⟩

/-- A two-row numeric training dataframe whose `Response` column is entirely
missing, so no feature correlates with it. -/
def demoNumeric2 : DataFrame :=
  ⟨[("Id", [some (.num 0), some (.num 1)]),
    ("F0", [some (.num 4), some (.num 7)]),
    ("Response", [none, none])]⟩

/-- A two-row categorical dataframe without missing cells. -/
def demoCategorical2 : DataFrame :=
  ⟨[("Id", [some (.num 0), some (.num 1)]),
    ("C0", [some (.str "x"), some (.str "y")])]⟩

/-- The second demo raw-data dict (empty date dataframe). -/
def demoRaw2 : RawData := ⟨demoNumeric2, demoCategorical2, ⟨[]⟩⟩

/-- A raw-data directory holding the second demo's CSV files. -/
def fsDemo2 : PreFS :=
  ⟨true, true, true, "Id,F0,Response", true, demoNumeric2, demoCategorical2, ⟨[]⟩⟩

/-! ## Supporting lemmas -/

/-- After `simulate_download`, every expected file exists. -/
theorem check_dataset_exists_simulate_download (s : List String) :
    check_dataset_exists (simulate_download s) = true := by
  simp only [check_dataset_exists, simulate_download, List.all_eq_true]
  intro f hf
  by_cases h : f ∈ s
  · simp [h]
  · simp [h, hf, List.mem_filter]

/-- C3: For every initial raw-data directory state and every outcome of the
Kaggle download attempt, `download.main` returns `True` and afterwards all seven
expected dataset files exist (as downloads or placeholders). -/
theorem download_main_ensures_dataset (init apiAdded zipAdded : List String)
    (apiSuccess : Bool) :
    (download_main init apiSuccess apiAdded zipAdded).1 = true ∧
    check_dataset_exists (download_main init apiSuccess apiAdded zipAdded).2 = true := by
  unfold download_main
  by_cases h1 : check_dataset_exists init = true
  · simp [h1]
  · by_cases h2 : apiSuccess = true
    · by_cases h3 : check_dataset_exists (init ++ (apiAdded ++ zipAdded)) = true
      · simp [h1, h2, h3]
      · simp [h1, h2, h3, check_dataset_exists_simulate_download]
    · simp [h1, h2, check_dataset_exists_simulate_download]

/-- C5: `load_data` exits with code 1 at the existence check exactly when one of
the three required training files is absent, and `load_processed_data` exits
with code 1 when neither the pickle nor the CSV of the processed data exists. -/
theorem load_functions_exit_on_missing (fs : PreFS) (rng : RNG) (pfs : ProcFS) :
    ((fs.hasTrainNumeric = false ∨ fs.hasTrainCategorical = false ∨
        fs.hasTrainDate = false) →
      load_data fs rng = .exited 1 .missingRequired) ∧
    (fs.hasTrainNumeric = true → fs.hasTrainCategorical = true →
      fs.hasTrainDate = true →
      ∀ c, load_data fs rng ≠ .exited c .missingRequired) ∧
    (pfs.pickleExists = false → pfs.csvExists = false →
      load_processed_data pfs = .exited 1) := by
  refine ⟨?_, ?_, ?_⟩
  · intro h
    unfold load_data
    have : ¬ (fs.hasTrainNumeric && fs.hasTrainCategorical && fs.hasTrainDate) = true := by
      rcases h with h | h | h <;> simp [h]
    simp [this]
  · intro h1 h2 h3 c
    unfold load_data
    rw [h1, h2, h3]
    rw [if_neg (show ¬ ¬ ((true : Bool) && true && true) = true by simp)]
    split_ifs with h5 h6
    · exact fun hh => LoadResult.noConfusion hh
    · exact fun hh => LoadResult.noConfusion hh
    · intro hh
      injection hh with he hs
      exact ExitSite.noConfusion hs
  · intro h1 h2
    unfold load_processed_data
    simp [h1, h2]

/-- An `if`-wrapped `some` that equals `some r` forces `r` to be the wrapped
value. -/
theorem ite_some_eq {α : Type} (c : Prop) [Decidable c] (a r : α)
    (h : (if c then some a else none) = some r) : r = a := by
  split at h
  · injection h with h
    exact h.symm
  · exact Option.noConfusion h

/-- Row selection returns at most as many rows as indices. -/
theorem DataFrame.nRows_selectRows_le (df : DataFrame) (idxs : List Nat) :
    (df.selectRows idxs).nRows ≤ idxs.length := by
  unfold DataFrame.selectRows DataFrame.nRows
  cases df.cols with
  | nil => simp
  | cons c rest => simp

/-- The sample `anomaly.main` passes to One-Class SVM. -/
def sampleOf (or : SkOracle) (X : DataFrame) : DataFrame :=
  if X.nRows > 10000 then X.selectRows (or.sampleIndices X.nRows (min 10000 X.nRows))
  else X

/-- Unfolding equation for a successful `anomaly.main` run. -/
theorem anomaly_main_ok (or : SkOracle) (fs : ProcFS) (d : DataFrame)
    (h : load_processed_data fs = .ok d) :
    anomaly_main or fs = .completed
      ⟨(prepare_data_for_anomaly_detection d).1,
       (prepare_data_for_anomaly_detection d).2,
       1 / 100,
       detect_anomalies_isolation_forest or (prepare_data_for_anomaly_detection d).1 (1 / 100) 42,
       detect_anomalies_lof or (prepare_data_for_anomaly_detection d).1 (1 / 100),
       sampleOf or (prepare_data_for_anomaly_detection d).1,
       detect_anomalies_ocsvm or (sampleOf or (prepare_data_for_anomaly_detection d).1) (1 / 100),
       if (prepare_data_for_anomaly_detection d).1.nCols ≤ 20
         then some (detect_anomalies_elliptic_envelope or
           (prepare_data_for_anomaly_detection d).1 (1 / 100) 42)
         else none⟩ := by
  unfold anomaly_main
  rw [h]
  rfl

/-- C7: Every detector passes its contamination argument to its estimator as the
expected-proportion-of-anomalies hyperparameter (`contamination` for
IsolationForest, LocalOutlierFactor and EllipticEnvelope, `nu` for OneClassSVM),
and `anomaly.main` calls all four with contamination `0.01`. -/
theorem contamination_wiring :
    (∀ (or : SkOracle) (X : DataFrame) (c : ℚ) (rs : Nat),
      (detect_anomalies_isolation_forest or X c rs).model.contamination = c) ∧
    (∀ (or : SkOracle) (X : DataFrame) (c : ℚ),
      (detect_anomalies_lof or X c).model.contamination = c) ∧
    (∀ (or : SkOracle) (X : DataFrame) (c : ℚ),
      (detect_anomalies_ocsvm or X c).model.nu = c) ∧
    (∀ (or : SkOracle) (X : DataFrame) (c : ℚ) (rs : Nat),
      (detect_anomalies_elliptic_envelope or X c rs).model.contamination = c) ∧
    (∀ (or : SkOracle) (fs : ProcFS) (run : AnomalyRun),
      anomaly_main or fs = .completed run →
        run.contamination = 1 / 100 ∧
        run.ifResult.model.contamination = 1 / 100 ∧
        run.lofResult.model.contamination = 1 / 100 ∧
        run.ocsvmResult.model.nu = 1 / 100 ∧
        ∀ r, run.eeResult = some r → r.model.contamination = 1 / 100) := by
  refine ⟨fun _ _ _ _ => rfl, fun _ _ _ => rfl, fun _ _ _ => rfl, fun _ _ _ _ => rfl, ?_⟩
  intro or fs run h
  cases hload : load_processed_data fs with
  | exited c =>
    unfold anomaly_main at h
    rw [hload] at h
    exact absurd h (fun hh => AnomalyMainResult.noConfusion hh)
  | ok d =>
    have h2 := (anomaly_main_ok or fs d hload).symm.trans h
    injection h2 with h2
    have hc : run.contamination = 1 / 100 := by rw [← h2]
    have hIF : run.ifResult = detect_anomalies_isolation_forest or
        (prepare_data_for_anomaly_detection d).1 (1 / 100) 42 := by rw [← h2]
    have hLOF : run.lofResult = detect_anomalies_lof or
        (prepare_data_for_anomaly_detection d).1 (1 / 100) := by rw [← h2]
    have hOC : run.ocsvmResult = detect_anomalies_ocsvm or
        (sampleOf or (prepare_data_for_anomaly_detection d).1) (1 / 100) := by rw [← h2]
    have hEE : run.eeResult =
        (if (prepare_data_for_anomaly_detection d).1.nCols ≤ 20
          then some (detect_anomalies_elliptic_envelope or
            (prepare_data_for_anomaly_detection d).1 (1 / 100) 42)
          else none) := by rw [← h2]
    refine ⟨hc, ?_, ?_, ?_, ?_⟩
    · rw [hIF]
      rfl
    · rw [hLOF]
      rfl
    · rw [hOC]
      rfl
    · intro r hr
      rw [hEE] at hr
      rw [ite_some_eq _ _ _ hr]
      rfl

/-- C1: A completed `anomaly.main` run works on the prepared loaded training
data; it fits Isolation Forest and LOF on the full `X`, One-Class SVM on a
sample of at most 10000 rows (the full `X` when `X` has at most 10000 rows),
and Elliptic Envelope on `X` exactly when `X` has at most 20 feature columns. -/
theorem anomaly_main_fits_four_models (or : SkOracle) (fs : ProcFS) (run : AnomalyRun)
    (hlen : ∀ n k, (or.sampleIndices n k).length = k)
    (h : anomaly_main or fs = .completed run) :
    (∀ d, load_processed_data fs = .ok d →
      run.X = (prepare_data_for_anomaly_detection d).1) ∧
    run.ifResult = detect_anomalies_isolation_forest or run.X run.contamination 42 ∧
    run.lofResult = detect_anomalies_lof or run.X run.contamination ∧
    run.ocsvmResult = detect_anomalies_ocsvm or run.X_sample run.contamination ∧
    run.X_sample.nRows ≤ 10000 ∧
    (run.X.nRows ≤ 10000 → run.X_sample = run.X) ∧
    (run.X.nCols ≤ 20 →
      run.eeResult = some (detect_anomalies_elliptic_envelope or run.X run.contamination 42)) ∧
    (20 < run.X.nCols → run.eeResult = none) := by
  cases hload : load_processed_data fs with
  | exited c =>
    unfold anomaly_main at h
    rw [hload] at h
    exact absurd h (fun hh => AnomalyMainResult.noConfusion hh)
  | ok d =>
    have h2 := (anomaly_main_ok or fs d hload).symm.trans h
    injection h2 with h2
    have hX : run.X = (prepare_data_for_anomaly_detection d).1 := by rw [← h2]
    have hc : run.contamination = 1 / 100 := by rw [← h2]
    have hIF : run.ifResult = detect_anomalies_isolation_forest or
        (prepare_data_for_anomaly_detection d).1 (1 / 100) 42 := by rw [← h2]
    have hLOF : run.lofResult = detect_anomalies_lof or
        (prepare_data_for_anomaly_detection d).1 (1 / 100) := by rw [← h2]
    have hXs : run.X_sample = sampleOf or (prepare_data_for_anomaly_detection d).1 := by
      rw [← h2]
    have hOC : run.ocsvmResult = detect_anomalies_ocsvm or
        (sampleOf or (prepare_data_for_anomaly_detection d).1) (1 / 100) := by rw [← h2]
    have hEE : run.eeResult =
        (if (prepare_data_for_anomaly_detection d).1.nCols ≤ 20
          then some (detect_anomalies_elliptic_envelope or
            (prepare_data_for_anomaly_detection d).1 (1 / 100) 42)
          else none) := by rw [← h2]
    refine ⟨?_, ?_, ?_, ?_, ?_, ?_, ?_, ?_⟩
    · intro d2 hd2
      injection hd2 with hdd
      rw [hX, hdd]
    · rw [hIF, hX, hc]
    · rw [hLOF, hX, hc]
    · rw [hOC, hXs, hc]
    · rw [hXs]
      unfold sampleOf
      split_ifs with hgt
      · exact le_trans (DataFrame.nRows_selectRows_le _ _) (by rw [hlen]; omega)
      · omega
    · intro hle
      rw [hX] at hle
      rw [hXs, hX]
      unfold sampleOf
      rw [if_neg (by omega)]
    · intro hcc
      rw [hX] at hcc
      rw [hEE, if_pos hcc, hX, hc]
    · intro hcc
      rw [hX] at hcc
      rw [hEE, if_neg (by omega)]

/-- Binary anomaly labels from `np.where(y_pred == -1, 1, 0)`: length preserved,
entries in `{0, 1}`, `1` exactly at `-1` predictions, sum equal to the number of
`-1` predictions. -/
theorem binarize_spec (pred : List Int) :
    (pred.map (fun v => if v = -1 then 1 else 0)).length = pred.length ∧
    (∀ a ∈ pred.map (fun v => if v = -1 then 1 else 0), a = 0 ∨ a = 1) ∧
    (∀ i, i < pred.length →
      ((pred.map (fun v => if v = -1 then 1 else 0)).getD i 0 = 1 ↔ pred.getD i 0 = -1)) ∧
    (pred.map (fun v => if v = -1 then 1 else 0)).sum
      = (pred.filter (fun v => v == -1)).length := by
  refine ⟨List.length_map _ _, ?_, ?_, ?_⟩
  · intro a ha
    rcases List.mem_map.1 ha with ⟨v, _, hv⟩
    by_cases hneg : v = -1
    · right; rw [← hv, if_pos hneg]
    · left; rw [← hv, if_neg hneg]
  · intro i hi
    induction pred generalizing i with
    | nil => simp at hi
    | cons a t ih =>
      cases i with
      | zero =>
        simp only [List.map_cons, List.getD_cons_zero]
        split_ifs with ha
        · simp [ha]
        · simp [ha]
      | succ n =>
        simp only [List.map_cons, List.getD_cons_succ]
        exact ih n (by simpa using hi)
  · induction pred with
    | nil => simp
    | cons a t ih =>
      by_cases ha : a = -1
      · simp [ha, ih]
        omega
      · simp [ha, ih]

end PLPA

namespace PLPA

/-- C8: Each of the four detector functions returns binary anomaly labels of the
length of its estimator's `fit_predict` output (hence of `len(X)` under the
sklearn contract), with a `1` exactly at the positions predicted `-1`, and the
anomaly count (the sum of the labels) equal to the number of `-1` predictions. -/
theorem detectors_binarize_predictions (or : SkOracle) (X : DataFrame) (c : ℚ) (rs : Nat) :
    ((detect_anomalies_isolation_forest or X c rs).anomalies.length
        = (or.ifFitPredict ⟨c, rs, 100, -1⟩ X).length ∧
      ((or.ifFitPredict ⟨c, rs, 100, -1⟩ X).length = X.nRows →
        (detect_anomalies_isolation_forest or X c rs).anomalies.length = X.nRows) ∧
      (∀ a ∈ (detect_anomalies_isolation_forest or X c rs).anomalies, a = 0 ∨ a = 1) ∧
      (∀ i, i < (or.ifFitPredict ⟨c, rs, 100, -1⟩ X).length →
        ((detect_anomalies_isolation_forest or X c rs).anomalies.getD i 0 = 1 ↔
          (or.ifFitPredict ⟨c, rs, 100, -1⟩ X).getD i 0 = -1)) ∧
      (detect_anomalies_isolation_forest or X c rs).anomalies.sum
        = ((or.ifFitPredict ⟨c, rs, 100, -1⟩ X).filter (fun v => v == -1)).length) ∧
    ((detect_anomalies_lof or X c).anomalies.length
        = (or.lofFitPredict ⟨20, c, -1⟩ X).length ∧
      ((or.lofFitPredict ⟨20, c, -1⟩ X).length = X.nRows →
        (detect_anomalies_lof or X c).anomalies.length = X.nRows) ∧
      (∀ a ∈ (detect_anomalies_lof or X c).anomalies, a = 0 ∨ a = 1) ∧
      (∀ i, i < (or.lofFitPredict ⟨20, c, -1⟩ X).length →
        ((detect_anomalies_lof or X c).anomalies.getD i 0 = 1 ↔
          (or.lofFitPredict ⟨20, c, -1⟩ X).getD i 0 = -1)) ∧
      (detect_anomalies_lof or X c).anomalies.sum
        = ((or.lofFitPredict ⟨20, c, -1⟩ X).filter (fun v => v == -1)).length) ∧
    ((detect_anomalies_ocsvm or X c).anomalies.length
        = (or.ocsvmFitPredict ⟨c, "rbf", "auto"⟩ X).length ∧
      ((or.ocsvmFitPredict ⟨c, "rbf", "auto"⟩ X).length = X.nRows →
        (detect_anomalies_ocsvm or X c).anomalies.length = X.nRows) ∧
      (∀ a ∈ (detect_anomalies_ocsvm or X c).anomalies, a = 0 ∨ a = 1) ∧
      (∀ i, i < (or.ocsvmFitPredict ⟨c, "rbf", "auto"⟩ X).length →
        ((detect_anomalies_ocsvm or X c).anomalies.getD i 0 = 1 ↔
          (or.ocsvmFitPredict ⟨c, "rbf", "auto"⟩ X).getD i 0 = -1)) ∧
      (detect_anomalies_ocsvm or X c).anomalies.sum
        = ((or.ocsvmFitPredict ⟨c, "rbf", "auto"⟩ X).filter (fun v => v == -1)).length) ∧
    ((detect_anomalies_elliptic_envelope or X c rs).anomalies.length
        = (or.eeFitPredict ⟨c, rs⟩ X).length ∧
      ((or.eeFitPredict ⟨c, rs⟩ X).length = X.nRows →
        (detect_anomalies_elliptic_envelope or X c rs).anomalies.length = X.nRows) ∧
      (∀ a ∈ (detect_anomalies_elliptic_envelope or X c rs).anomalies, a = 0 ∨ a = 1) ∧
      (∀ i, i < (or.eeFitPredict ⟨c, rs⟩ X).length →
        ((detect_anomalies_elliptic_envelope or X c rs).anomalies.getD i 0 = 1 ↔
          (or.eeFitPredict ⟨c, rs⟩ X).getD i 0 = -1)) ∧
      (detect_anomalies_elliptic_envelope or X c rs).anomalies.sum
        = ((or.eeFitPredict ⟨c, rs⟩ X).filter (fun v => v == -1)).length) := by
  obtain ⟨l1, e1, g1, s1⟩ := binarize_spec (or.ifFitPredict ⟨c, rs, 100, -1⟩ X)
  obtain ⟨l2, e2, g2, s2⟩ := binarize_spec (or.lofFitPredict ⟨20, c, -1⟩ X)
  obtain ⟨l3, e3, g3, s3⟩ := binarize_spec (or.ocsvmFitPredict ⟨c, "rbf", "auto"⟩ X)
  obtain ⟨l4, e4, g4, s4⟩ := binarize_spec (or.eeFitPredict ⟨c, rs⟩ X)
  exact ⟨⟨l1, fun hl => l1.trans hl, e1, g1, s1⟩,
         ⟨l2, fun hl => l2.trans hl, e2, g2, s2⟩,
         ⟨l3, fun hl => l3.trans hl, e3, g3, s3⟩,
         ⟨l4, fun hl => l4.trans hl, e4, g4, s4⟩⟩

end PLPA

namespace PLPA

/-- Witness for C5 at a concrete missing-file state. -/
theorem load_functions_exit_on_missing_witness :
    load_data fsMissing trivRNG = .exited 1 .missingRequired ∧
    load_processed_data pfsNone = .exited 1 :=
  ⟨(load_functions_exit_on_missing fsMissing trivRNG pfsNone).1 (Or.inl rfl),
   (load_functions_exit_on_missing fsMissing trivRNG pfsNone).2.2 rfl rfl⟩

/-- Witness for C7 at a concrete run of `anomaly.main`. -/
theorem contamination_wiring_witness :
    (detect_anomalies_isolation_forest trivOracle demoProcessed (3 / 100) 7).model.contamination
      = 3 / 100 ∧
    demoRun.contamination = 1 / 100 ∧
    demoRun.ifResult.model.contamination = 1 / 100 ∧
    demoRun.lofResult.model.contamination = 1 / 100 ∧
    demoRun.ocsvmResult.model.nu = 1 / 100 := by
  have h := contamination_wiring
  have h5 := h.2.2.2.2 trivOracle (storeOf demoProcessed) demoRun rfl
  exact ⟨h.1 trivOracle demoProcessed (3 / 100) 7, h5.1, h5.2.1, h5.2.2.1, h5.2.2.2.1⟩

/-- Witness for C1 at a concrete run of `anomaly.main`. -/
theorem anomaly_main_fits_four_models_witness :
    demoRun.X = (prepare_data_for_anomaly_detection demoProcessed).1 ∧
    demoRun.X_sample = demoRun.X ∧
    demoRun.X_sample.nRows ≤ 10000 ∧
    demoRun.eeResult = some (detect_anomalies_elliptic_envelope trivOracle demoRun.X
      demoRun.contamination 42) := by
  have h := anomaly_main_fits_four_models trivOracle (storeOf demoProcessed) demoRun
    (fun n k => by simp [trivOracle]) rfl
  exact ⟨h.1 demoProcessed rfl, h.2.2.2.2.2.1 (by decide), h.2.2.2.2.1,
    h.2.2.2.2.2.2.1 (by decide)⟩

/-- Witness for C8 at a concrete estimator behaviour on two rows. -/
theorem detectors_binarize_predictions_witness :
    (detect_anomalies_isolation_forest trivOracle demoNumeric (1 / 100) 42).anomalies.length = 2 ∧
    (detect_anomalies_lof trivOracle demoNumeric (1 / 100)).anomalies.sum = 1 := by
  have h := detectors_binarize_predictions trivOracle demoNumeric (1 / 100) 42
  refine ⟨h.1.2.1 (by decide), ?_⟩
  have hs := h.2.1.2.2.2.2
  rw [hs]
  decide

end PLPA

namespace PLPA

/-- A dataframe whose column list starts with `(n, col)` has `col.length` rows. -/
theorem DataFrame.nRows_mk_cons (n : String) (col : Col) (rest : List (String × Col)) :
    (DataFrame.mk ((n, col) :: rest)).nRows = col.length := rfl

/-- C4: When the required files exist and the first line of `train_numeric.csv`
starts with the placeholder marker, `load_data` skips the CSV reads and returns
`generate_synthetic_data`, whose three dataframes all have exactly 10000 rows,
and whose numeric dataframe has columns `Id`, the 50 features `L0_S0_F0..49`,
and `Response`, with integer Ids and a `Response` column of integer values 0 or
1 — for every random draw, in particular numpy seeded with 42. -/
theorem load_data_placeholder_synthetic (fs : PreFS) (rng : RNG)
    (hN : fs.hasTrainNumeric = true) (hC : fs.hasTrainCategorical = true)
    (hD : fs.hasTrainDate = true)
    (hp : strStartsWith (strStrip fs.firstLineNumeric) PLACEHOLDER_MARKER = true) :
    load_data fs rng = .ok (generate_synthetic_data rng) ∧
    (∀ c ∈ (generate_synthetic_data rng).numeric.cols, c.snd.length = 10000) ∧
    (∀ c ∈ (generate_synthetic_data rng).categorical.cols, c.snd.length = 10000) ∧
    (∀ c ∈ (generate_synthetic_data rng).date.cols, c.snd.length = 10000) ∧
    (generate_synthetic_data rng).numeric.nRows = 10000 ∧
    (generate_synthetic_data rng).categorical.nRows = 10000 ∧
    (generate_synthetic_data rng).date.nRows = 10000 ∧
    (generate_synthetic_data rng).numeric.colNames =
      "Id" :: ((List.range 50).map (fun i => "L0_S0_F" ++ toString i) ++ ["Response"]) ∧
    (generate_synthetic_data rng).numeric.nCols = 52 ∧
    (generate_synthetic_data rng).numeric.cols.head? = some ("Id", synIds) ∧
    (∀ cell ∈ synIds, ∃ k : ℕ, cell = some (.num (k : ℚ))) ∧
    (generate_synthetic_data rng).numeric.cols.getLast? =
      some ("Response", (List.range SYN_SAMPLES).map (fun j =>
        some (Val.num (if rng.respChoice j then 1 else 0)))) ∧
    (∀ cell ∈ ((List.range SYN_SAMPLES).map (fun j =>
        some (Val.num (if rng.respChoice j then 1 else 0))) : Col),
      cell = some (.num 0) ∨ cell = some (.num 1)) := by
  have hsyn : synIds.length = 10000 := by
    show ((List.range SYN_SAMPLES).map (fun (j : ℕ) => some (Val.num (j : ℚ)))).length = 10000
    rw [List.length_map, List.length_range]
    rfl
  have hdfN : (generate_synthetic_data rng).numeric
      = DataFrame.mk (("Id", synIds) ::
        ((List.range SYN_NUMERIC_FEATURES).map (fun i =>
          ("L0_S0_F" ++ toString i,
            (List.range SYN_SAMPLES).map (fun j => some (Val.num (rng.normal j i)))))
        ++ [("Response", (List.range SYN_SAMPLES).map (fun j =>
            some (Val.num (if rng.respChoice j then 1 else 0))))])) := rfl
  have hdfC : (generate_synthetic_data rng).categorical
      = DataFrame.mk (("Id", synIds) ::
        (List.range SYN_CATEGORICAL_FEATURES).map (fun i =>
          ("L0_S0_C" ++ toString i,
            (List.range SYN_SAMPLES).map (fun j => some (Val.str (rng.catVal i j)))))) := rfl
  have hdfD : (generate_synthetic_data rng).date
      = DataFrame.mk (("Id", synIds) ::
        (List.range SYN_DATE_FEATURES).map (fun i =>
          ("L0_S0_D" ++ toString i,
            (List.range SYN_SAMPLES).map (fun j => some (Val.str (rng.dateVal i j)))))) := rfl
  refine ⟨?_, ?_, ?_, ?_, ?_, ?_, ?_, ?_, ?_, ?_, ?_, ?_, ?_⟩
  · unfold load_data
    rw [hN, hC, hD]
    rw [if_neg (show ¬ ¬ ((true : Bool) && true && true) = true by simp), if_pos hp]
  · intro c hc
    rw [hdfN] at hc
    rcases List.mem_cons.1 hc with h | h
    · subst h
      dsimp only
      exact hsyn
    · rcases List.mem_append.1 h with h | h
      · rcases List.mem_map.1 h with ⟨i, _, hi⟩
        subst hi
        dsimp only
        simp only [List.length_map, List.length_range, SYN_SAMPLES]
      · rcases List.mem_singleton.1 h with h
        subst h
        dsimp only
        simp only [List.length_map, List.length_range, SYN_SAMPLES]
  · intro c hc
    rw [hdfC] at hc
    rcases List.mem_cons.1 hc with h | h
    · subst h
      dsimp only
      exact hsyn
    · rcases List.mem_map.1 h with ⟨i, _, hi⟩
      subst hi
      dsimp only
      simp only [List.length_map, List.length_range, SYN_SAMPLES]
  · intro c hc
    rw [hdfD] at hc
    rcases List.mem_cons.1 hc with h | h
    · subst h
      dsimp only
      exact hsyn
    · rcases List.mem_map.1 h with ⟨i, _, hi⟩
      subst hi
      dsimp only
      simp only [List.length_map, List.length_range, SYN_SAMPLES]
  · rw [hdfN, DataFrame.nRows_mk_cons, hsyn]
  · rw [hdfC, DataFrame.nRows_mk_cons, hsyn]
  · rw [hdfD, DataFrame.nRows_mk_cons, hsyn]
  · show (generate_synthetic_data rng).numeric.cols.map Prod.fst = _
    rw [hdfN]
    simp only [List.map_cons, List.map_append, List.map_map, SYN_NUMERIC_FEATURES]
    rfl
  · show (generate_synthetic_data rng).numeric.cols.length = 52
    rw [hdfN]
    simp only [List.length_cons, List.length_append, List.length_map, List.length_range,
      SYN_NUMERIC_FEATURES]
    rfl
  · rw [hdfN, List.head?_cons]
  · intro cell hcell
    rcases List.mem_map.1 hcell with ⟨j, _, hj⟩
    exact ⟨j, hj.symm⟩
  · rw [hdfN, ← List.cons_append, List.getLast?_concat]
  · intro cell hcell
    rcases List.mem_map.1 hcell with ⟨j, _, hj⟩
    by_cases hb : rng.respChoice j
    · right
      rw [← hj, if_pos hb]
    · left
      rw [← hj, if_neg hb]

/-- Witness for C4 at a concrete placeholder directory and random source. -/
theorem load_data_placeholder_synthetic_witness :
    load_data fsPlaceholder trivRNG = .ok (generate_synthetic_data trivRNG) ∧
    (generate_synthetic_data trivRNG).numeric.nRows = 10000 := by
  have h := load_data_placeholder_synthetic fsPlaceholder trivRNG rfl rfl rfl (by decide)
  exact ⟨h.1, h.2.2.2.2.1⟩

end PLPA

namespace PLPA

/-- `find?` by column name skips a prefix containing no column of that name. -/
theorem find?_name_append (l1 l2 : List (String × Col)) (f : String)
    (h : ∀ c ∈ l1, c.fst ≠ f) :
    (l1 ++ l2).find? (fun c => c.fst = f) = l2.find? (fun c => c.fst = f) := by
  induction l1 with
  | nil => rfl
  | cons a t ih =>
    rw [List.cons_append, List.find?_cons_of_neg _ (by
      simpa using h a (List.mem_cons_self a t))]
    exact ih (fun c hc => h c (List.mem_cons_of_mem _ hc))

/-- `find?` by column name commutes with a value-only transformation. -/
theorem find?_name_map_value (g : Col → Col) (l : List (String × Col)) (f : String) :
    (l.map (fun c => (c.fst, g c.snd))).find? (fun c => c.fst = f)
      = (l.find? (fun c => c.fst = f)).map (fun c => (c.fst, g c.snd)) := by
  induction l with
  | nil => rfl
  | cons a t ih =>
    by_cases ha : a.fst = f
    · rw [List.map_cons, List.find?_cons_of_pos _ (by simpa using ha),
        List.find?_cons_of_pos _ (by simpa using ha), Option.map_some']
    · rw [List.map_cons, List.find?_cons_of_neg _ (by simpa using ha),
        List.find?_cons_of_neg _ (by simpa using ha)]
      exact ih

/-- With distinct column names, `find?` by name returns the unique member. -/
theorem find?_name_of_mem_nodup (l : List (String × Col)) (f : String) (col : Col)
    (hnd : (l.map Prod.fst).Nodup) (hmem : (f, col) ∈ l) :
    l.find? (fun c => c.fst = f) = some (f, col) := by
  induction l with
  | nil => cases hmem
  | cons a t ih =>
    rcases List.mem_cons.1 hmem with h | h
    · rw [← h]
      exact List.find?_cons_of_pos _ (by simp)
    · have hf : f ∈ t.map Prod.fst := List.mem_map.2 ⟨(f, col), h, rfl⟩
      rw [List.map_cons] at hnd
      obtain ⟨hnotin, hnd2⟩ := List.nodup_cons.1 hnd
      have hane : ¬ a.fst = f := by
        intro he
        rw [he] at hnotin
        exact hnotin hf
      rw [List.find?_cons_of_neg _ (by simpa using hane)]
      exact ih hnd2 h

/-- Every column of a `select` bears one of the selected names. -/
theorem select_fst_mem (df : DataFrame) (names : List String) :
    ∀ c ∈ (df.select names).cols, c.fst ∈ names := by
  intro c hc
  unfold DataFrame.select at hc
  rcases List.mem_filterMap.1 hc with ⟨n, hn, hc2⟩
  rcases Option.map_eq_some'.1 hc2 with ⟨col, _, hcol⟩
  rw [← hcol]
  exact hn

/-- Cell access commutes with a per-cell map. -/
theorem getD_map_cell (g : Option Val → Option Val) (col : Col) (i : Nat)
    (hi : i < col.length) :
    (col.map g).getD i none = g (col.getD i none) := by
  induction col generalizing i with
  | nil => simp at hi
  | cons a t ih =>
    cases i with
    | zero => rw [List.map_cons, List.getD_cons_zero, List.getD_cons_zero]
    | succ n =>
      rw [List.map_cons, List.getD_cons_succ, List.getD_cons_succ]
      exact ih n (by simpa using hi)

/-- Looking a feature column up in the imputed reconstruction
`select(kept) ++ impute(drop(kept))` yields exactly its imputed input column. -/
theorem getCol_select_append_impute (df : DataFrame) (dropNames : List String)
    (fill : List Val → Val) (f : String) (col : Col)
    (hnd : df.colNames.Nodup) (hmem : (f, col) ∈ df.cols) (hf : ¬ f ∈ dropNames) :
    (DataFrame.mk ((df.select dropNames).cols
      ++ (sklearnImpute fill (df.dropCols dropNames)).cols)).getCol f
      = some (sklearnImputeCol fill col) := by
  unfold DataFrame.getCol
  have h1 : ∀ c ∈ (df.select dropNames).cols, c.fst ≠ f := by
    intro c hc he
    exact hf (he ▸ select_fst_mem df dropNames c hc)
  rw [show (DataFrame.mk ((df.select dropNames).cols
      ++ (sklearnImpute fill (df.dropCols dropNames)).cols)).cols
    = (df.select dropNames).cols ++ (sklearnImpute fill (df.dropCols dropNames)).cols from rfl]
  rw [find?_name_append _ _ _ h1]
  have h2 : (sklearnImpute fill (df.dropCols dropNames)).cols
      = (df.cols.filter (fun c => ¬ dropNames.contains c.fst)).map
          (fun c => (c.fst, sklearnImputeCol fill c.snd)) := rfl
  rw [h2, find?_name_map_value]
  have hmem2 : (f, col) ∈ df.cols.filter (fun c => ¬ dropNames.contains c.fst) := by
    refine List.mem_filter.2 ⟨hmem, ?_⟩
    simp [hf]
  have hnd2 : ((df.cols.filter (fun c => ¬ dropNames.contains c.fst)).map Prod.fst).Nodup :=
    List.Nodup.sublist (List.Sublist.map _ (List.filter_sublist _)) hnd
  rw [find?_name_of_mem_nodup _ f col hnd2 hmem2, Option.map_some']
  rfl

end PLPA

namespace PLPA

/-- C2: `handle_missing_values` imputes every numeric feature column with the
fitted median of its observed entries and every categorical feature column with
its fitted most-frequent value: each feature column of the output equals the
imputed input column, a cell that was present keeps its value, and a missing
cell receives the statistic fitted on that column. -/
theorem handle_missing_values_imputation (data : RawData)
    (hndN : data.numeric.colNames.Nodup) (hndC : data.categorical.colNames.Nodup) :
    (∀ f col i, (f, col) ∈ data.numeric.cols → f ≠ idColOf data.numeric →
      f ≠ "Response" → i < col.length →
      (handle_missing_values data).numeric.getCol f = some (sklearnImputeCol medianFill col) ∧
      (sklearnImputeCol medianFill col).length = col.length ∧
      (∀ v, col.getD i none = some v →
        (sklearnImputeCol medianFill col).getD i none = some v) ∧
      (col.getD i none = none → (sklearnImputeCol medianFill col).getD i none
        = some (medianFill (col.filterMap id)))) ∧
    (∀ f col i, (f, col) ∈ data.categorical.cols → f ≠ idColOf data.numeric →
      i < col.length →
      (handle_missing_values data).categorical.getCol f
        = some (sklearnImputeCol mostFrequentFill col) ∧
      (sklearnImputeCol mostFrequentFill col).length = col.length ∧
      (∀ v, col.getD i none = some v →
        (sklearnImputeCol mostFrequentFill col).getD i none = some v) ∧
      (col.getD i none = none → (sklearnImputeCol mostFrequentFill col).getD i none
        = some (mostFrequentFill (col.filterMap id)))) := by
  constructor
  · intro f col i hmem hid hresp hi
    have hout : (handle_missing_values data).numeric
        = DataFrame.mk ((data.numeric.select
            (if data.numeric.colNames.contains "Response" = true
              then [idColOf data.numeric, "Response"] else [idColOf data.numeric])).cols
          ++ (sklearnImpute medianFill (data.numeric.dropCols
            (if data.numeric.colNames.contains "Response" = true
              then [idColOf data.numeric, "Response"] else [idColOf data.numeric]))).cols) := rfl
    have hfd : ¬ f ∈ (if data.numeric.colNames.contains "Response" = true
        then [idColOf data.numeric, "Response"] else [idColOf data.numeric]) := by
      split_ifs <;> simp [hid, hresp]
    have himp : sklearnImputeCol medianFill col
        = col.map (fun c => some (c.getD (medianFill (col.filterMap id)))) := rfl
    refine ⟨by rw [hout]; exact getCol_select_append_impute _ _ _ _ _ hndN hmem hfd,
      by rw [himp]; exact List.length_map _ _, ?_, ?_⟩
    · intro v hv
      rw [himp, getD_map_cell _ _ _ hi, hv]
      rfl
    · intro hv
      rw [himp, getD_map_cell _ _ _ hi, hv]
      rfl
  · intro f col i hmem hid hi
    have hout : (handle_missing_values data).categorical
        = DataFrame.mk ((data.categorical.select [idColOf data.numeric]).cols
          ++ (sklearnImpute mostFrequentFill
            (data.categorical.dropCols [idColOf data.numeric])).cols) := rfl
    have hfd : ¬ f ∈ [idColOf data.numeric] := by simp [hid]
    have himp : sklearnImputeCol mostFrequentFill col
        = col.map (fun c => some (c.getD (mostFrequentFill (col.filterMap id)))) := rfl
    refine ⟨by rw [hout]; exact getCol_select_append_impute _ _ _ _ _ hndC hmem hfd,
      by rw [himp]; exact List.length_map _ _, ?_, ?_⟩
    · intro v hv
      rw [himp, getD_map_cell _ _ _ hi, hv]
      rfl
    · intro hv
      rw [himp, getD_map_cell _ _ _ hi, hv]
      rfl

/-- Witness for C2 on the demo data: the missing numeric cell receives the
column median 4, the missing categorical cell the most frequent value `a`. -/
theorem handle_missing_values_imputation_witness :
    (handle_missing_values demoRaw).numeric.getCol "F0"
      = some (sklearnImputeCol medianFill [some (.num 4), none]) ∧
    (sklearnImputeCol medianFill [some (.num 4), none]).getD 1 none = some (.num 4) ∧
    (handle_missing_values demoRaw).categorical.getCol "C0"
      = some (sklearnImputeCol mostFrequentFill [some (.str "a"), none]) ∧
    (sklearnImputeCol mostFrequentFill [some (.str "a"), none]).getD 1 none
      = some (.str "a") := by
  have h := handle_missing_values_imputation demoRaw (by decide) (by decide)
  have hN := h.1 "F0" [some (.num 4), none] 1 (by decide) (by decide) (by decide) (by decide)
  have hC := h.2 "C0" [some (.str "a"), none] 1 (by decide) (by decide) (by decide)
  refine ⟨hN.1, ?_, hC.1, ?_⟩
  · rw [hN.2.2.2 (by decide)]
    decide
  · rw [hC.2.2.2 (by decide)]
    decide

end PLPA

namespace PLPA

/-- A contained column name can be looked up. -/
theorem getCol_isSome_of_contains (df : DataFrame) (n : String)
    (h : df.colNames.contains n = true) : ∃ c, df.getCol n = some c := by
  unfold DataFrame.getCol
  have hn : n ∈ df.cols.map Prod.fst := by simpa [DataFrame.colNames] using h
  rcases List.mem_map.1 hn with ⟨p, hp, he⟩
  have hs : (df.cols.find? (fun c => c.fst = n)).isSome :=
    List.find?_isSome.2 ⟨p, hp, by simp [he]⟩
  rcases Option.isSome_iff_exists.1 hs with ⟨c, hc⟩
  exact ⟨c.snd, by rw [hc]; rfl⟩

/-- Lookup in a dataframe whose first column has the sought name. -/
theorem getCol_mk_cons_pos (n : String) (c : Col) (rest : List (String × Col)) :
    (DataFrame.mk ((n, c) :: rest)).getCol n = some c := by
  unfold DataFrame.getCol
  rw [show (DataFrame.mk ((n, c) :: rest)).cols = (n, c) :: rest from rfl,
    List.find?_cons_of_pos _ (by simp)]
  rfl

/-- Lookup skips a first column of a different name. -/
theorem getCol_mk_cons_neg (m n : String) (c : Col) (rest : List (String × Col))
    (h : m ≠ n) :
    (DataFrame.mk ((m, c) :: rest)).getCol n = (DataFrame.mk rest).getCol n := by
  unfold DataFrame.getCol
  rw [show (DataFrame.mk ((m, c) :: rest)).cols = (m, c) :: rest from rfl,
    List.find?_cons_of_neg _ (by simpa using h)]

/-- C10: `handle_missing_values` leaves the `Id` column of the numeric and
categorical dataframes, the `Response` column of the numeric dataframe, and the
entire (non-empty) date dataframe unchanged; only feature columns are imputed. -/
theorem handle_missing_values_frame (data : RawData)
    (hIdN : data.numeric.colNames.contains "Id" = true)
    (hRespN : data.numeric.colNames.contains "Response" = true)
    (hIdC : data.categorical.colNames.contains "Id" = true)
    (hDate : data.date.isEmpty = false) :
    (handle_missing_values data).numeric.getCol "Id" = data.numeric.getCol "Id" ∧
    (handle_missing_values data).numeric.getCol "Response"
      = data.numeric.getCol "Response" ∧
    (handle_missing_values data).categorical.getCol "Id"
      = data.categorical.getCol "Id" ∧
    (handle_missing_values data).date = some data.date := by
  have hidc : idColOf data.numeric = "Id" := by
    unfold idColOf
    rw [if_pos hIdN]
  obtain ⟨cId, hgId⟩ := getCol_isSome_of_contains data.numeric "Id" hIdN
  obtain ⟨cResp, hgResp⟩ := getCol_isSome_of_contains data.numeric "Response" hRespN
  obtain ⟨cIdC, hgIdC⟩ := getCol_isSome_of_contains data.categorical "Id" hIdC
  have hout : (handle_missing_values data).numeric
      = DataFrame.mk ((data.numeric.select
          (if data.numeric.colNames.contains "Response" = true
            then [idColOf data.numeric, "Response"] else [idColOf data.numeric])).cols
        ++ (sklearnImpute medianFill (data.numeric.dropCols
          (if data.numeric.colNames.contains "Response" = true
            then [idColOf data.numeric, "Response"] else [idColOf data.numeric]))).cols) := rfl
  rw [if_pos hRespN, hidc] at hout
  have hsel : (data.numeric.select ["Id", "Response"]).cols
      = [("Id", cId), ("Response", cResp)] := by
    unfold DataFrame.select
    rw [List.filterMap_cons, hgId]
    rw [show Option.map (fun c => ("Id", c)) (some cId) = some ("Id", cId) from rfl]
    rw [List.filterMap_cons, hgResp]
    rw [show Option.map (fun c => ("Response", c)) (some cResp) = some ("Response", cResp)
      from rfl]
    rfl
  have houtC : (handle_missing_values data).categorical
      = DataFrame.mk ((data.categorical.select [idColOf data.numeric]).cols
        ++ (sklearnImpute mostFrequentFill
          (data.categorical.dropCols [idColOf data.numeric])).cols) := rfl
  rw [hidc] at houtC
  have hselC : (data.categorical.select ["Id"]).cols = [("Id", cIdC)] := by
    unfold DataFrame.select
    rw [List.filterMap_cons, hgIdC]
    rw [show Option.map (fun c => ("Id", c)) (some cIdC) = some ("Id", cIdC) from rfl]
    rfl
  refine ⟨?_, ?_, ?_, ?_⟩
  · rw [hout, hsel]
    simp only [List.cons_append, List.nil_append]
    rw [getCol_mk_cons_pos]
    exact hgId.symm
  · rw [hout, hsel]
    simp only [List.cons_append, List.nil_append]
    rw [getCol_mk_cons_neg _ _ _ _ (by decide), getCol_mk_cons_pos]
    exact hgResp.symm
  · rw [houtC, hselC]
    simp only [List.cons_append, List.nil_append]
    rw [getCol_mk_cons_pos]
    exact hgIdC.symm
  · have hd : (handle_missing_values data).date
        = (if data.date.isEmpty = true then none else some data.date) := rfl
    rw [hd, hDate]
    simp

/-- Witness for C10 on the demo data. -/
theorem handle_missing_values_frame_witness :
    (handle_missing_values demoRaw).numeric.getCol "Id" = demoRaw.numeric.getCol "Id" ∧
    (handle_missing_values demoRaw).numeric.getCol "Response"
      = demoRaw.numeric.getCol "Response" ∧
    (handle_missing_values demoRaw).categorical.getCol "Id"
      = demoRaw.categorical.getCol "Id" ∧
    (handle_missing_values demoRaw).date = some demoRaw.date :=
  handle_missing_values_frame demoRaw (by decide) (by decide) (by decide) (by decide)

end PLPA

namespace PLPA

/-- The `/api/predict` handler depends on the request body only through the
defaulted sample. -/
theorem api_predict_sample_congr (m : BasicModel) (a b : PredictInput)
    (h : predictSample a = predictSample b) :
    api_predict_anomaly m a = api_predict_anomaly m b := by
  simp only [api_predict_anomaly]
  rw [h]

/-- `np.argmax` over four entries yields an index below four. -/
theorem argmaxFirst_four_lt (a b c d : ℚ) : argmaxFirst [a, b, c, d] < 4 := by
  show (List.foldl (fun (x : ℕ × ℚ) (p : ℕ × ℚ) => if p.2 > x.2 then p else x) (0, a)
      [(0, a), (1, b), (2, c), (3, d)]).1 < 4
  simp only [List.foldl_cons, List.foldl_nil]
  split_ifs <;> simp

/-- The handler's response on a predicted anomaly. -/
theorem api_predict_anomaly_pos (m : BasicModel) (inp : PredictInput)
    (hp : m.predict (predictSample inp) = -1) :
    api_predict_anomaly m inp
      = ⟨true, m.decision (predictSample inp),
         (if FEATURE_NAMES.getD (argmaxFirst ((List.range 4).map (fun i =>
              |(predictSample inp).getD i 0 - NORMAL_VALUES.getD i 0|
                / NORMAL_VALUES.getD i 0))) "" = "temperature" then "Check cooling system"
          else if FEATURE_NAMES.getD (argmaxFirst ((List.range 4).map (fun i =>
              |(predictSample inp).getD i 0 - NORMAL_VALUES.getD i 0|
                / NORMAL_VALUES.getD i 0))) "" = "pressure" then "Inspect pressure valves"
          else if FEATURE_NAMES.getD (argmaxFirst ((List.range 4).map (fun i =>
              |(predictSample inp).getD i 0 - NORMAL_VALUES.getD i 0|
                / NORMAL_VALUES.getD i 0))) "" = "speed" then "Verify motor operation"
          else if FEATURE_NAMES.getD (argmaxFirst ((List.range 4).map (fun i =>
              |(predictSample inp).getD i 0 - NORMAL_VALUES.getD i 0|
                / NORMAL_VALUES.getD i 0))) "" = "vibration" then "Check for loose components"
          else "Maintenance required"),
         some ("Abnormal " ++ FEATURE_NAMES.getD (argmaxFirst ((List.range 4).map (fun i =>
              |(predictSample inp).getD i 0 - NORMAL_VALUES.getD i 0|
                / NORMAL_VALUES.getD i 0))) "")⟩ := by
  simp only [api_predict_anomaly]
  rw [show (m.predict (predictSample inp) == -1) = true from by simp [hp], if_pos rfl]

/-- The handler's response when no anomaly is predicted. -/
theorem api_predict_anomaly_neg (m : BasicModel) (inp : PredictInput)
    (hp : ¬ m.predict (predictSample inp) = -1) :
    api_predict_anomaly m inp
      = ⟨false, m.decision (predictSample inp), "Normal operation", none⟩ := by
  simp only [api_predict_anomaly]
  rw [show (m.predict (predictSample inp) == -1) = false from by simpa using hp,
    if_neg (by simp)]

/-- The if/elif chain over `feature_names[idx]` is the table of the four
feature-specific recommendations. -/
theorem reco_of_k (k : ℕ) (hk : k < 4) :
    (if FEATURE_NAMES.getD k "" = "temperature" then "Check cooling system"
     else if FEATURE_NAMES.getD k "" = "pressure" then "Inspect pressure valves"
     else if FEATURE_NAMES.getD k "" = "speed" then "Verify motor operation"
     else if FEATURE_NAMES.getD k "" = "vibration" then "Check for loose components"
     else "Maintenance required")
      = ["Check cooling system", "Inspect pressure valves", "Verify motor operation",
         "Check for loose components"].getD k "" := by
  interval_cases k <;> decide

/-- Each feature-specific recommendation is in the table. -/
theorem reco_getD_mem (k : ℕ) (hk : k < 4) :
    (["Check cooling system", "Inspect pressure valves", "Verify motor operation",
      "Check for loose components"].getD k "")
      ∈ ["Check cooling system", "Inspect pressure valves", "Verify motor operation",
         "Check for loose components"] := by
  interval_cases k <;> decide

/-- No feature-specific recommendation is the generic maintenance message. -/
theorem reco_getD_ne_maint (k : ℕ) (hk : k < 4) :
    (["Check cooling system", "Inspect pressure valves", "Verify motor operation",
      "Check for loose components"].getD k "") ≠ "Maintenance required" := by
  interval_cases k <;> decide

/-- No feature-specific recommendation is the normal-operation message. -/
theorem reco_getD_ne_normal (k : ℕ) (hk : k < 4) :
    (["Check cooling system", "Inspect pressure valves", "Verify motor operation",
      "Check for loose components"].getD k "") ≠ "Normal operation" := by
  interval_cases k <;> decide

end PLPA

namespace PLPA

/-- C9: In `/api/predict`, an omitted feature defaults to its normal value
(temperature 50, pressure 100, speed 75, vibration 25); the recommendation is
`Normal operation` exactly when the model predicts no anomaly; on an anomaly it
is the feature-specific message selected by the feature of largest relative
deviation from its normal value, hence always one of the four such messages and
never `Maintenance required`. -/
theorem api_predict_recommendation (m : BasicModel) (inp : PredictInput) :
    (api_predict_anomaly m ⟨none, inp.pressure, inp.speed, inp.vibration⟩
      = api_predict_anomaly m ⟨some 50, inp.pressure, inp.speed, inp.vibration⟩) ∧
    (api_predict_anomaly m ⟨inp.temperature, none, inp.speed, inp.vibration⟩
      = api_predict_anomaly m ⟨inp.temperature, some 100, inp.speed, inp.vibration⟩) ∧
    (api_predict_anomaly m ⟨inp.temperature, inp.pressure, none, inp.vibration⟩
      = api_predict_anomaly m ⟨inp.temperature, inp.pressure, some 75, inp.vibration⟩) ∧
    (api_predict_anomaly m ⟨inp.temperature, inp.pressure, inp.speed, none⟩
      = api_predict_anomaly m ⟨inp.temperature, inp.pressure, inp.speed, some 25⟩) ∧
    ((api_predict_anomaly m inp).recommendation = "Normal operation"
      ↔ ¬ m.predict (predictSample inp) = -1) ∧
    (m.predict (predictSample inp) = -1 →
      (api_predict_anomaly m inp).recommendation
        ∈ ["Check cooling system", "Inspect pressure valves", "Verify motor operation",
           "Check for loose components"]) ∧
    (m.predict (predictSample inp) = -1 →
      (api_predict_anomaly m inp).recommendation
        = ["Check cooling system", "Inspect pressure valves", "Verify motor operation",
           "Check for loose components"].getD
            (argmaxFirst ((List.range 4).map (fun i =>
              |(predictSample inp).getD i 0 - NORMAL_VALUES.getD i 0|
                / NORMAL_VALUES.getD i 0))) "") ∧
    (api_predict_anomaly m inp).recommendation ≠ "Maintenance required" := by
  refine ⟨api_predict_sample_congr m _ _ rfl, api_predict_sample_congr m _ _ rfl,
    api_predict_sample_congr m _ _ rfl, api_predict_sample_congr m _ _ rfl, ?_⟩
  by_cases hp : m.predict (predictSample inp) = -1
  · have heq := api_predict_anomaly_pos m inp hp
    have hk : argmaxFirst ((List.range 4).map (fun i =>
        |(predictSample inp).getD i 0 - NORMAL_VALUES.getD i 0|
          / NORMAL_VALUES.getD i 0)) < 4 := by
      rw [show (List.range 4).map (fun i =>
          |(predictSample inp).getD i 0 - NORMAL_VALUES.getD i 0|
            / NORMAL_VALUES.getD i 0)
        = [|(predictSample inp).getD 0 0 - NORMAL_VALUES.getD 0 0| / NORMAL_VALUES.getD 0 0,
           |(predictSample inp).getD 1 0 - NORMAL_VALUES.getD 1 0| / NORMAL_VALUES.getD 1 0,
           |(predictSample inp).getD 2 0 - NORMAL_VALUES.getD 2 0| / NORMAL_VALUES.getD 2 0,
           |(predictSample inp).getD 3 0 - NORMAL_VALUES.getD 3 0| / NORMAL_VALUES.getD 3 0]
        from rfl]
      exact argmaxFirst_four_lt _ _ _ _
    have hrec : (api_predict_anomaly m inp).recommendation
        = ["Check cooling system", "Inspect pressure valves", "Verify motor operation",
           "Check for loose components"].getD
            (argmaxFirst ((List.range 4).map (fun i =>
              |(predictSample inp).getD i 0 - NORMAL_VALUES.getD i 0|
                / NORMAL_VALUES.getD i 0))) "" := by
      rw [heq]
      exact reco_of_k _ hk
    refine ⟨?_, fun _ => ?_, fun _ => hrec, ?_⟩
    · constructor
      · intro hno
        exact absurd (hrec.symm.trans hno) (reco_getD_ne_normal _ hk)
      · intro hne
        exact absurd hp hne
    · rw [hrec]
      exact reco_getD_mem _ hk
    · rw [hrec]
      exact reco_getD_ne_maint _ hk
  · have heq := api_predict_anomaly_neg m inp hp
    refine ⟨?_, fun hcon => absurd hcon hp, fun hcon => absurd hcon hp, ?_⟩
    · rw [heq]
      simp [hp]
    · rw [heq]
      simp

/-- Witness for C9: with every feature omitted and an always-anomalous model,
the response carries one of the four feature-specific recommendations and not
the generic maintenance message. -/
theorem api_predict_recommendation_witness :
    (api_predict_anomaly mAnom inpNone).recommendation
      ∈ ["Check cooling system", "Inspect pressure valves", "Verify motor operation",
         "Check for loose components"] ∧
    (api_predict_anomaly mAnom inpNone).recommendation ≠ "Maintenance required" := by
  have h := api_predict_recommendation mAnom inpNone
  exact ⟨h.2.2.2.2.2.1 rfl, h.2.2.2.2.2.2.2⟩

end PLPA

namespace PLPA

/-- Counterexample to C6 as stated: on the demo raw data (a train set with a
feature uncorrelated with `Response`), `preprocess.main` does not save the
merged dataframe — it saves the feature-selected dataframe, which differs. -/
theorem preprocess_saves_selected_counterexample :
    savedOf (preprocess_main fsDemo2 trivRNG)
      = some (feature_selection (merge_datasets (handle_missing_values demoRaw2))) ∧
    savedOf (preprocess_main fsDemo2 trivRNG)
      ≠ some (merge_datasets (handle_missing_values demoRaw2)) := by
  decide

/-- C6 (amended): the pipeline is linear — load, impute, merge, then for train
data feature-select, save; `anomaly.main` then loads exactly the saved
dataframe and fits on its prepared feature matrix. -/
theorem pipeline_stages_compose (fs : PreFS) (rng : RNG) (or : SkOracle) (data : RawData)
    (h : load_data fs rng = .ok data) :
    (preprocess_main fs rng =
      (if (merge_datasets (handle_missing_values data)).colNames.contains "Response"
        then .saved "train" (feature_selection (merge_datasets (handle_missing_values data)))
        else .saved "test" (merge_datasets (handle_missing_values data)))) ∧
    (∀ tag df, preprocess_main fs rng = .saved tag df →
      (anomaly_main or (storeOf df)).fittedX
        = some (prepare_data_for_anomaly_detection df).1) := by
  constructor
  · unfold preprocess_main
    rw [h]
  · intro tag df _hdf
    have hload : load_processed_data (storeOf df) = .ok df := rfl
    rw [anomaly_main_ok or (storeOf df) df hload]
    rfl

/-- Witness for C6 (amended) on the demo pipeline. -/
theorem pipeline_stages_compose_witness :
    preprocess_main fsDemo trivRNG
      = .saved "train" (feature_selection (merge_datasets (handle_missing_values demoRaw))) ∧
    (anomaly_main trivOracle (storeOf
        (feature_selection (merge_datasets (handle_missing_values demoRaw))))).fittedX
      = some (prepare_data_for_anomaly_detection
          (feature_selection (merge_datasets (handle_missing_values demoRaw)))).1 := by
  have h := pipeline_stages_compose fsDemo trivRNG trivOracle demoRaw rfl
  have h1 : preprocess_main fsDemo trivRNG
      = .saved "train" (feature_selection (merge_datasets (handle_missing_values demoRaw))) := by
    rw [h.1, if_pos (by decide)]
  exact ⟨h1, h.2 "train" _ h1⟩

end PLPA
